import Mathlib

/-!
Verification of the 2D physics and game-state layer of newtons-space-drift.

The numeric code is embedded over ℚ. Every call to Math.sqrt in the source
is modelled by an explicit argument (named `dist`, `speed`, `len`, ...) that
theorems constrain by the defining property of the square root, namely
0 ≤ d and d ^ 2 = the radicand. Concrete witnesses instantiate these
arguments at inputs where the radicand is a perfect square, so every
definition evaluates by computation. Division by zero follows the ℚ
convention x / 0 = 0; at each place where the source can divide by zero the
surrounding comparison yields the same boolean under both this convention
and the JavaScript NaN semantics, as noted inline.
-/

namespace SpaceDrift

/-- A 2D vector with rational components, embedding the {x, y} pairs used
throughout the source. -/
structure Vec2 where
  x : ℚ
  y : ℚ
deriving DecidableEq

namespace Debris

/-- Embeds Debris.handleCollision (src/src/components/game/Debris.ts,
lines 64-81): the per-axis 1D elastic collision formulas. Returns the pair
(new velocity of this debris, velocity returned for the other object). -/
def handleCollision (velocity : Vec2) (mass : ℚ) (otherVelocity : Vec2) (otherMass : ℚ) :
    Vec2 × Vec2 :=
  let totalMass := mass + otherMass
  let newVelX := ((mass - otherMass) * velocity.x + 2 * otherMass * otherVelocity.x) / totalMass
  let newVelY := ((mass - otherMass) * velocity.y + 2 * otherMass * otherVelocity.y) / totalMass
  let otherNewVelX := ((otherMass - mass) * otherVelocity.x + 2 * mass * velocity.x) / totalMass
  let otherNewVelY := ((otherMass - mass) * otherVelocity.y + 2 * mass * velocity.y) / totalMass
  (⟨newVelX, newVelY⟩, ⟨otherNewVelX, otherNewVelY⟩)

/-- Embeds Debris.wrapAroundScreen (Debris.ts, lines 41-49): four sequential
if statements with a hard-coded margin of 50, each reading the coordinate as
left by the previous one. -/
def wrapAroundScreen (gameWidth gameHeight x y : ℚ) : ℚ × ℚ :=
  let x1 := if x < -50 then gameWidth + 50 else x
  let x2 := if x1 > gameWidth + 50 then -50 else x1
  let y1 := if y < -50 then gameHeight + 50 else y
  let y2 := if y1 > gameHeight + 50 then -50 else y1
  (x2, y2)

end Debris

/-- A physics body as registered with PhysicsEngine.addBody
(src/unnamed/part_001): position, velocity, mass and width (the width also
drives the circular collision radius). -/
structure PhysBody where
  x : ℚ
  y : ℚ
  velocityX : ℚ
  velocityY : ℚ
  mass : ℚ
  width : ℚ
deriving DecidableEq

namespace PhysicsEngine

/-- Embeds PhysicsEngine.resolveCollision (src/unnamed/part_001, lines
326-366). `dist` models Math.sqrt(dx*dx + dy*dy). The source mutates the
velocities of both bodies and the positions of their game objects; here the
updated pair of bodies is returned. -/
def resolveCollision (bodyA bodyB : PhysBody) (dist : ℚ) : PhysBody × PhysBody :=
  if dist = 0 then (bodyA, bodyB)
  else
    let nx := (bodyA.x - bodyB.x) / dist
    let ny := (bodyA.y - bodyB.y) / dist
    let dvx := bodyA.velocityX - bodyB.velocityX
    let dvy := bodyA.velocityY - bodyB.velocityY
    let dvn := dvx * nx + dvy * ny
    if dvn > 0 then (bodyA, bodyB)
    else
      let impulse := 2 * dvn / (bodyA.mass + bodyB.mass)
      let overlap := (bodyA.width + bodyB.width) / 4 - dist
      let separationX := nx * overlap * (1 / 2)
      let separationY := ny * overlap * (1 / 2)
      ({ bodyA with
          velocityX := bodyA.velocityX - impulse * bodyB.mass * nx
          velocityY := bodyA.velocityY - impulse * bodyB.mass * ny
          x := bodyA.x + separationX
          y := bodyA.y + separationY },
       { bodyB with
          velocityX := bodyB.velocityX + impulse * bodyA.mass * nx
          velocityY := bodyB.velocityY + impulse * bodyA.mass * ny
          x := bodyB.x - separationX
          y := bodyB.y - separationY })

end PhysicsEngine

/-- A gravity well (src/src/components/game/GravityWell.ts): static
position, mass, planet radius (the capture radius) and visualRadius (the
influence radius). The gravitational constant is fixed to 500 by the
constructor. -/
structure GravityWell where
  x : ℚ
  y : ℚ
  mass : ℚ
  radius : ℚ
  visualRadius : ℚ
deriving DecidableEq

namespace GravityWell

/-- The constructor sets this.gravitationalConstant = 500 unconditionally. -/
def gravitationalConstant : ℚ := 500

/-- Embeds GravityWell.calculateGravitationalForce (GravityWell.ts, lines
115-134). `dist` models Math.sqrt(distanceSquared). -/
def calculateGravitationalForce (w : GravityWell) (objectX objectY objectMass dist : ℚ) :
    Vec2 :=
  let dx := w.x - objectX
  let dy := w.y - objectY
  let distanceSquared := dx * dx + dy * dy
  if dist < w.radius then ⟨0, 0⟩
  else
    let forceMagnitude := gravitationalConstant * w.mass * objectMass / distanceSquared
    ⟨dx / dist * forceMagnitude, dy / dist * forceMagnitude⟩

/-- Embeds GravityWell.getGravityStrength (GravityWell.ts, lines 147-154).
`dist` models Phaser.Math.Distance.Between(this.x, this.y, objectX, objectY),
the only use the body makes of the object position. -/
def getGravityStrength (w : GravityWell) (dist : ℚ) : ℚ :=
  if dist ≥ w.visualRadius then 0
  else if dist ≤ w.radius then 1
  else 1 - (dist - w.radius) / (w.visualRadius - w.radius)

end GravityWell

/-- The mutable physics state of the player pod
(src/src/components/game/PlayerPod.ts): position, velocity and mass. -/
structure PlayerState where
  x : ℚ
  y : ℚ
  velocityX : ℚ
  velocityY : ℚ
  mass : ℚ
deriving DecidableEq

/-- The directional intent flags passed to PlayerPod.update. -/
structure Controls where
  up : Bool
  down : Bool
  left : Bool
  right : Bool
deriving DecidableEq

namespace PlayerPod

/-- this.thrusterForce = 0.3. -/
def thrusterForce : ℚ := 3 / 10

/-- this.maxVelocity = 200. -/
def maxVelocity : ℚ := 200

/-- The currentThrust vector built by the four sequential if statements in
PlayerPod.update (lines 78-99); each later branch overwrites the component
written by an earlier one, and the whole block is skipped without fuel. -/
def currentThrust (hasFuel : Bool) (controls : Controls) : Vec2 :=
  if hasFuel then
    let t : Vec2 := ⟨0, 0⟩
    let t := if controls.up then { t with y := -thrusterForce } else t
    let t := if controls.down then { t with y := thrusterForce } else t
    let t := if controls.left then { t with x := -thrusterForce } else t
    let t := if controls.right then { t with x := thrusterForce } else t
    t
  else ⟨0, 0⟩

/-- The velocity of PlayerPod.update after thrust integration
(velocity += (thrust / mass) * delta * 0.1) and before the speed clamp.
hasFuel is getFuel() > 0 in the GameScene. -/
def preClampVelocity (s : PlayerState) (delta : ℚ) (controls : Controls) (fuel : ℚ) : Vec2 :=
  let thrust := currentThrust (decide (0 < fuel)) controls
  ⟨s.velocityX + thrust.x / s.mass * delta * (1 / 10),
   s.velocityY + thrust.y / s.mass * delta * (1 / 10)⟩

/-- Embeds PlayerPod.wrapAroundScreen (PlayerPod.ts, lines 216-224):
sequential if statements with no margin. -/
def wrapAroundScreen (gameWidth gameHeight x y : ℚ) : ℚ × ℚ :=
  let x1 := if x < 0 then gameWidth else x
  let x2 := if x1 > gameWidth then 0 else x1
  let y1 := if y < 0 then gameHeight else y
  let y2 := if y1 > gameHeight then 0 else y1
  (x2, y2)

/-- Embeds the physics part of PlayerPod.update (PlayerPod.ts, lines
65-143): thrust integration, speed clamp, position integration
(position += velocity * delta * 0.01), then screen wrap. `speed` models
Math.sqrt of the squared norm of the pre-clamp velocity. -/
def update (s : PlayerState) (delta : ℚ) (controls : Controls) (fuel : ℚ)
    (speed gameWidth gameHeight : ℚ) : PlayerState :=
  let v := preClampVelocity s delta controls fuel
  let v : Vec2 :=
    if speed > maxVelocity then ⟨v.x / speed * maxVelocity, v.y / speed * maxVelocity⟩
    else v
  let px := s.x + v.x * delta * (1 / 100)
  let py := s.y + v.y * delta * (1 / 100)
  let p := wrapAroundScreen gameWidth gameHeight px py
  { s with x := p.1, y := p.2, velocityX := v.x, velocityY := v.y }

end PlayerPod

/-- Events the GameScene transition methods hand to the presentation layer
once past their re-entrancy guard (the educationalOverlay / transition
overlay each method schedules exactly when its body runs). -/
inductive GameEvent where
  | levelOneComplete
  | levelTwoComplete
  | won
  | failed
deriving DecidableEq

/-- The state-machine fields of GameScene
(src/src/components/game/GameScene.ts) that the transition methods read and
write synchronously: the gameStarted flag, the countdown, and the emitted
transition events (most recent first). -/
structure SceneState where
  gameStarted : Bool
  timeRemaining : ℤ
  events : List GameEvent
deriving DecidableEq

namespace GameScene

/-- Embeds GameScene.consumeFuel (GameScene.ts, lines 914-916):
this.fuel = Math.max(0, this.fuel - amount). -/
def consumeFuel (fuel amount : ℚ) : ℚ := max 0 (fuel - amount)

/-- Embeds the synchronous part of GameScene.gameOver (lines 894-911):
guard on gameStarted, clear it, schedule the Mission Failed overlay. -/
def gameOver (s : SceneState) : SceneState :=
  if !s.gameStarted then s
  else { s with gameStarted := false, events := GameEvent.failed :: s.events }

/-- Embeds the synchronous part of GameScene.gameWin (lines 868-880). -/
def gameWin (s : SceneState) : SceneState :=
  if !s.gameStarted then s
  else { s with gameStarted := false, events := GameEvent.won :: s.events }

/-- Embeds the synchronous part of GameScene.advanceToLevel2 (lines
608-619): same guard, then the level transition overlay. -/
def advanceToLevel2 (s : SceneState) : SceneState :=
  if !s.gameStarted then s
  else { s with gameStarted := false, events := GameEvent.levelOneComplete :: s.events }

/-- Embeds the synchronous part of GameScene.advanceToLevel3 (lines
730-741). -/
def advanceToLevel3 (s : SceneState) : SceneState :=
  if !s.gameStarted then s
  else { s with gameStarted := false, events := GameEvent.levelTwoComplete :: s.events }

/-- Embeds the timer callback installed by GameScene.startGameTimer (lines
495-506): every second, this.timeRemaining-- and, once it is ≤ 0,
this.gameOver(). -/
def timerTick (s : SceneState) : SceneState :=
  let s := { s with timeRemaining := s.timeRemaining - 1 }
  if s.timeRemaining ≤ 0 then gameOver s else s

end GameScene

/-- The trigger/cooldown state of a MomentumTransferGate
(src/src/components/game/MomentumTransferGate.ts) together with the
geometry read by checkGatePass. The constructor sets cooldownTime = 1000. -/
structure GateState where
  directionX : ℚ
  directionY : ℚ
  conservationFactor : ℚ
  gateWidth : ℚ
  isActive : Bool
  activationCooldown : ℚ
  cooldownTime : ℚ
deriving DecidableEq

namespace MomentumTransferGate

/-- Embeds the cooldown half of MomentumTransferGate.update (lines
134-153): while inactive, count the cooldown down by delta and re-arm once
it reaches ≤ 0. -/
def update (g : GateState) (delta : ℚ) : GateState :=
  if !g.isActive then
    let cd := g.activationCooldown - delta
    if cd ≤ 0 then { g with activationCooldown := cd, isActive := true }
    else { g with activationCooldown := cd }
  else g

/-- Embeds MomentumTransferGate.checkGatePass (lines 161-230). `dist`
models Math.sqrt(dx*dx + dy*dy) for dx = objectX - this.x,
dy = objectY - this.y. Returns the optional redirected velocity together
with the updated gate (activateGate sets isActive = false and
activationCooldown = cooldownTime). -/
def checkGatePass (g : GateState) (objectX objectY : ℚ) (velocity : Vec2)
    (objectRadius dist : ℚ) : Option Vec2 × GateState :=
  if !g.isActive then (none, g)
  else if dist < g.gateWidth / 2 + objectRadius then
    let dotProduct := velocity.x * g.directionX + velocity.y * g.directionY
    if |dotProduct| > 5 then
      (some ⟨g.directionX * |dotProduct| * g.conservationFactor,
             g.directionY * |dotProduct| * g.conservationFactor⟩,
       { g with isActive := false, activationCooldown := g.cooldownTime })
    else (none, g)
  else (none, g)

/-- Folds a sequence of per-tick updates over a gate, one elapsed time per
tick. -/
def applyUpdates (g : GateState) (deltas : List ℚ) : GateState :=
  deltas.foldl update g

end MomentumTransferGate

/-- The movement state of a MovingPlatform
(src/src/components/game/MovingPlatform.ts): current position, the two
fixed endpoints, the speed and the ping-pong direction sign. -/
structure PlatformState where
  x : ℚ
  y : ℚ
  startX : ℚ
  startY : ℚ
  endX : ℚ
  endY : ℚ
  moveSpeed : ℚ
  currentDirection : ℚ
  isActive : Bool
deriving DecidableEq

namespace MovingPlatform

/-- Embeds MovingPlatform.update (MovingPlatform.ts, lines 112-146).
`len` models the length of the segment (both the normalize call and
totalDistance compute it); `dS` and `dE` model the distances from the NEW
position to startPoint and endPoint respectively. The position moves first;
the direction flips afterwards, when the new position is farther from an
endpoint than the whole segment is long. -/
def update (p : PlatformState) (delta len dS dE : ℚ) : PlatformState :=
  if !p.isActive then p
  else
    let moveX := (p.endX - p.startX) / len * (p.moveSpeed * delta * (1 / 100))
    let moveY := (p.endY - p.startY) / len * (p.moveSpeed * delta * (1 / 100))
    let x := p.x + moveX * p.currentDirection
    let y := p.y + moveY * p.currentDirection
    if dS > len ∨ dE > len then
      { p with x := x, y := y, currentDirection := -p.currentDirection }
    else
      { p with x := x, y := y }

end MovingPlatform

/-- The size of one movement step of MovingPlatform.update:
moveSpeed * delta * 0.01. -/
def MovingPlatform.stepSize (p : PlatformState) (delta : ℚ) : ℚ :=
  p.moveSpeed * delta * (1 / 100)

/-- The fields of MomentumLoopAstronaut (src/unnamed/part_004) read by
canBeRescued: the rescued flag, the required momentum and the required unit
direction. momentumTolerance is fixed to 0.3 by the field initializer. -/
structure Astronaut where
  rescued : Bool
  requiredMomentum : ℚ
  directionX : ℚ
  directionY : ℚ
deriving DecidableEq

namespace MomentumLoopAstronaut

/-- private momentumTolerance: number = 0.3. -/
def momentumTolerance : ℚ := 3 / 10

/-- Embeds MomentumLoopAstronaut.canBeRescued (src/unnamed/part_004, lines
854-875). `playerSpeed` models Math.sqrt of the squared velocity norm. At
playerSpeed = 0 the source divides 0 by 0 producing NaN in the direction
components; every comparison against NaN is false, and under the ℚ
convention 0 / 0 = 0 the same comparisons are likewise false, so the two
semantics return the same boolean there. -/
def canBeRescued (a : Astronaut) (velocityX velocityY playerMass playerSpeed : ℚ) : Bool :=
  if a.rescued then false
  else
    let playerMomentum := playerSpeed * playerMass
    let playerDirectionX := velocityX / playerSpeed
    let playerDirectionY := velocityY / playerSpeed
    let dotProduct := playerDirectionX * a.directionX + playerDirectionY * a.directionY
    let momentumMatch :=
      |playerMomentum - a.requiredMomentum| < a.requiredMomentum * momentumTolerance
    let directionMatch := dotProduct > 1 - momentumTolerance
    momentumMatch && directionMatch

end MomentumLoopAstronaut

/-!
Theorems. One theorem per claim of the specification, each preceded by its
claim id; claims whose theorems carry hypotheses also get a closed witness
instantiating them at concrete inputs.
-/

/-- C1, counterexample: the claim extends momentum conservation of
Debris.handleCollision to arbitrary masses, but for masses 1 and -1 the
total mass is 0, the divisions degenerate, and the momentum balance fails
(both velocity pairs collapse to 0 under the ℚ convention; the JavaScript
source produces Infinity/NaN there, so the equality fails in both
semantics). -/
theorem C1_counterexample :
    ¬ (1 * (Debris.handleCollision ⟨1, 0⟩ 1 ⟨0, 0⟩ (-1)).1.x
        + (-1) * (Debris.handleCollision ⟨1, 0⟩ 1 ⟨0, 0⟩ (-1)).2.x
        = 1 * 1 + (-1) * 0) := by
  norm_num [Debris.handleCollision]

/-- C1 (amended): for colliding bodies with positive masses, positions at
nonzero distance and approaching relative normal velocity, the impulse
update of PhysicsEngine.resolveCollision conserves total momentum in both
components; and Debris.handleCollision conserves total momentum for any
velocities and any masses whose sum is nonzero. -/
theorem C1_momentum_conservation :
    (∀ (bodyA bodyB : PhysBody) (dist : ℚ),
      0 < bodyA.mass → 0 < bodyB.mass →
      0 < dist →
      dist ^ 2 = (bodyA.x - bodyB.x) ^ 2 + (bodyA.y - bodyB.y) ^ 2 →
      (bodyA.velocityX - bodyB.velocityX) * ((bodyA.x - bodyB.x) / dist)
        + (bodyA.velocityY - bodyB.velocityY) * ((bodyA.y - bodyB.y) / dist) < 0 →
      bodyA.mass * (PhysicsEngine.resolveCollision bodyA bodyB dist).1.velocityX
          + bodyB.mass * (PhysicsEngine.resolveCollision bodyA bodyB dist).2.velocityX
          = bodyA.mass * bodyA.velocityX + bodyB.mass * bodyB.velocityX
        ∧ bodyA.mass * (PhysicsEngine.resolveCollision bodyA bodyB dist).1.velocityY
          + bodyB.mass * (PhysicsEngine.resolveCollision bodyA bodyB dist).2.velocityY
          = bodyA.mass * bodyA.velocityY + bodyB.mass * bodyB.velocityY)
    ∧ (∀ (velocity otherVelocity : Vec2) (mass otherMass : ℚ),
      mass + otherMass ≠ 0 →
      mass * (Debris.handleCollision velocity mass otherVelocity otherMass).1.x
          + otherMass * (Debris.handleCollision velocity mass otherVelocity otherMass).2.x
          = mass * velocity.x + otherMass * otherVelocity.x
        ∧ mass * (Debris.handleCollision velocity mass otherVelocity otherMass).1.y
          + otherMass * (Debris.handleCollision velocity mass otherVelocity otherMass).2.y
          = mass * velocity.y + otherMass * otherVelocity.y) := by
  constructor
  · intro bodyA bodyB dist _ _ hd0 _ hvn
    have hdz : ¬ dist = 0 := ne_of_gt hd0
    have hvn' : ¬ ((bodyA.velocityX - bodyB.velocityX) * ((bodyA.x - bodyB.x) / dist)
        + (bodyA.velocityY - bodyB.velocityY) * ((bodyA.y - bodyB.y) / dist) > 0) :=
      not_lt_of_gt hvn
    simp only [PhysicsEngine.resolveCollision, if_neg hdz, if_neg hvn']
    constructor <;> ring
  · intro velocity otherVelocity mass otherMass hm
    simp only [Debris.handleCollision]
    constructor <;> · field_simp; ring

/-- C1, witness: bodies of masses 1 and 2 at distance 5 (positions (0,0)
and (3,4)) with head-on velocities; the amended theorem applies and the
momentum balance holds there. -/
theorem C1_momentum_conservation_witness :
    ((1 : ℚ) * (PhysicsEngine.resolveCollision
        ⟨0, 0, 10, 0, 1, 32⟩ ⟨3, 4, -5, 0, 2, 32⟩ 5).1.velocityX
      + 2 * (PhysicsEngine.resolveCollision
        ⟨0, 0, 10, 0, 1, 32⟩ ⟨3, 4, -5, 0, 2, 32⟩ 5).2.velocityX
      = 1 * 10 + 2 * (-5))
    ∧ ((1 : ℚ) * (Debris.handleCollision ⟨10, 0⟩ 1 ⟨-5, 0⟩ 2).1.x
      + 2 * (Debris.handleCollision ⟨10, 0⟩ 1 ⟨-5, 0⟩ 2).2.x
      = 1 * 10 + 2 * (-5)) := by
  have h := C1_momentum_conservation
  refine ⟨?_, ?_⟩
  · exact (h.1 ⟨0, 0, 10, 0, 1, 32⟩ ⟨3, 4, -5, 0, 2, 32⟩ 5
      (by norm_num) (by norm_num) (by norm_num) (by norm_num) (by norm_num)).1
  · exact (h.2 ⟨10, 0⟩ ⟨-5, 0⟩ 1 2 (by norm_num)).1

/-- C2: calculateGravitationalForce returns the zero vector strictly inside
the capture radius; outside it the returned vector has squared magnitude
(G * wellMass * bodyMass / r ^ 2) ^ 2, is collinear with the vector from
the body to the well, and (for nonnegative masses) points toward the well.
The scenario instance (well mass 100, capture radius 40, body of mass 1 at
distance 50 along the x axis) returns the vector (-20, 0) of magnitude
exactly 20, directed toward the well. -/
theorem C2_gravitational_force :
    (∀ (w : GravityWell) (objectX objectY objectMass dist : ℚ),
      0 ≤ dist →
      dist * dist = (w.x - objectX) * (w.x - objectX) + (w.y - objectY) * (w.y - objectY) →
      (dist < w.radius →
        GravityWell.calculateGravitationalForce w objectX objectY objectMass dist = ⟨0, 0⟩)
      ∧ (¬ dist < w.radius →
        (GravityWell.calculateGravitationalForce w objectX objectY objectMass dist).x ^ 2
            + (GravityWell.calculateGravitationalForce w objectX objectY objectMass dist).y ^ 2
            = (GravityWell.gravitationalConstant * w.mass * objectMass / dist ^ 2) ^ 2
        ∧ (GravityWell.calculateGravitationalForce w objectX objectY objectMass dist).x
              * (w.y - objectY)
            = (GravityWell.calculateGravitationalForce w objectX objectY objectMass dist).y
              * (w.x - objectX)
        ∧ (0 ≤ w.mass → 0 ≤ objectMass →
            0 ≤ (GravityWell.calculateGravitationalForce w objectX objectY objectMass dist).x
                  * (w.x - objectX)
              + (GravityWell.calculateGravitationalForce w objectX objectY objectMass dist).y
                  * (w.y - objectY))))
    ∧ GravityWell.calculateGravitationalForce ⟨0, 0, 100, 40, 200⟩ 50 0 1 50 = ⟨-20, 0⟩ := by
  constructor
  · intro w objectX objectY objectMass dist hd0 hd2
    constructor
    · intro h
      simp only [GravityWell.calculateGravitationalForce, if_pos h]
    · intro h
      simp only [GravityWell.calculateGravitationalForce, if_neg h]
      rcases eq_or_ne dist 0 with h0 | h0
      · rw [h0] at hd2 ⊢
        rw [← hd2]
        norm_num
      · refine ⟨?_, ?_, ?_⟩
        · rw [← hd2]
          field_simp
          linear_combination (-(GravityWell.gravitationalConstant ^ 2 * w.mass ^ 2
            * objectMass ^ 2 * dist ^ 4)) * hd2
        · ring
        · intro hM hm
          rw [← hd2]
          have hG : (0 : ℚ) < GravityWell.gravitationalConstant := by
            norm_num [GravityWell.gravitationalConstant]
          have hdd : (0 : ℚ) < dist * dist := by positivity
          have hmag : 0 ≤ GravityWell.gravitationalConstant * w.mass * objectMass
              / (dist * dist) := by positivity
          have key : (w.x - objectX) / dist
                * (GravityWell.gravitationalConstant * w.mass * objectMass / (dist * dist))
                * (w.x - objectX)
              + (w.y - objectY) / dist
                * (GravityWell.gravitationalConstant * w.mass * objectMass / (dist * dist))
                * (w.y - objectY)
              = ((w.x - objectX) * (w.x - objectX) + (w.y - objectY) * (w.y - objectY)) / dist
                * (GravityWell.gravitationalConstant * w.mass * objectMass / (dist * dist)) := by
            ring
          rw [key, ← hd2]
          have : dist * dist / dist = dist := by field_simp
          rw [this]
          positivity
  · norm_num [GravityWell.calculateGravitationalForce, GravityWell.gravitationalConstant]

/-- C2, witness: the general half of the theorem applied to the scenario
well and body; inside the capture radius (distance 30 < 40) the force is
zero. -/
theorem C2_gravitational_force_witness :
    GravityWell.calculateGravitationalForce ⟨0, 0, 100, 40, 200⟩ 30 0 1 30 = ⟨0, 0⟩ := by
  have h := (C2_gravitational_force.1 ⟨0, 0, 100, 40, 200⟩ 30 0 1 30
    (by norm_num) (by norm_num)).1
  exact h (by norm_num)

/-- Every value of getGravityStrength lies in [0, 1] whenever the capture
radius is below the influence radius (true of every well the game creates:
radii 35 < 150 and 30 < 120, defaults 40 < 200). -/
lemma getGravityStrength_mem_unitInterval (w : GravityWell) (hRV : w.radius < w.visualRadius)
    (d : ℚ) : 0 ≤ GravityWell.getGravityStrength w d ∧ GravityWell.getGravityStrength w d ≤ 1 := by
  unfold GravityWell.getGravityStrength
  split_ifs with h1 h2
  · norm_num
  · norm_num
  · push_neg at h1 h2
    have hden : (0 : ℚ) < w.visualRadius - w.radius := by linarith
    have hnum : (0 : ℚ) < d - w.radius := by linarith
    have hq0 : 0 ≤ (d - w.radius) / (w.visualRadius - w.radius) := by positivity
    have hq1 : (d - w.radius) / (w.visualRadius - w.radius) ≤ 1 := by
      rw [div_le_one hden]
      linarith
    constructor <;> linarith

/-- On [radius, visualRadius] the field strength is antitone in the
distance (for wells with radius < visualRadius). -/
lemma getGravityStrength_antitone (w : GravityWell) (hRV : w.radius < w.visualRadius)
    (d₁ d₂ : ℚ) (h1 : w.radius ≤ d₁) (h12 : d₁ ≤ d₂) (h2 : d₂ ≤ w.visualRadius) :
    GravityWell.getGravityStrength w d₂ ≤ GravityWell.getGravityStrength w d₁ := by
  have hden : (0 : ℚ) < w.visualRadius - w.radius := by linarith
  rcases le_or_lt w.visualRadius d₂ with hV2 | hV2
  · have hz : GravityWell.getGravityStrength w d₂ = 0 := by
      unfold GravityWell.getGravityStrength
      rw [if_pos (by linarith)]
    rw [hz]
    exact (getGravityStrength_mem_unitInterval w hRV d₁).1
  · rcases le_or_lt d₂ w.radius with hR2 | hR2
    · have ha : GravityWell.getGravityStrength w d₂ = 1 := by
        unfold GravityWell.getGravityStrength
        rw [if_neg (by push_neg; linarith), if_pos hR2]
      have hb : GravityWell.getGravityStrength w d₁ = 1 := by
        unfold GravityWell.getGravityStrength
        rw [if_neg (by push_neg; linarith), if_pos (by linarith)]
      rw [ha, hb]
    · have ha : GravityWell.getGravityStrength w d₂
          = 1 - (d₂ - w.radius) / (w.visualRadius - w.radius) := by
        unfold GravityWell.getGravityStrength
        rw [if_neg (by push_neg; linarith), if_neg (by push_neg; linarith)]
      rcases le_or_lt d₁ w.radius with hR1 | hR1
      · have hb : GravityWell.getGravityStrength w d₁ = 1 := by
          unfold GravityWell.getGravityStrength
          rw [if_neg (by push_neg; linarith), if_pos hR1]
        rw [hb]
        exact (getGravityStrength_mem_unitInterval w hRV d₂).2
      · have hb : GravityWell.getGravityStrength w d₁
            = 1 - (d₁ - w.radius) / (w.visualRadius - w.radius) := by
          unfold GravityWell.getGravityStrength
          rw [if_neg (by push_neg; linarith), if_neg (by push_neg; linarith)]
        rw [ha, hb]
        have hdiv : (d₁ - w.radius) / (w.visualRadius - w.radius)
            ≤ (d₂ - w.radius) / (w.visualRadius - w.radius) := by
          rw [div_le_div_iff₀ hden hden]
          have h12' : d₁ - w.radius ≤ d₂ - w.radius := by linarith
          exact mul_le_mul_of_nonneg_right h12' (le_of_lt hden)
        linarith

/-- C3: for every well whose capture radius is below its influence radius
(all wells the game builds), getGravityStrength is exactly 1 at every
distance up to the capture radius, exactly 0 at every distance at or beyond
the influence radius, monotonically non-increasing between them, and all
its values lie in [0, 1]. -/
theorem C3_field_strength (w : GravityWell) (hRV : w.radius < w.visualRadius) :
    (∀ d, d ≤ w.radius → GravityWell.getGravityStrength w d = 1)
    ∧ (∀ d, w.visualRadius ≤ d → GravityWell.getGravityStrength w d = 0)
    ∧ (∀ d₁ d₂, w.radius ≤ d₁ → d₁ ≤ d₂ → d₂ ≤ w.visualRadius →
        GravityWell.getGravityStrength w d₂ ≤ GravityWell.getGravityStrength w d₁)
    ∧ (∀ d, 0 ≤ GravityWell.getGravityStrength w d ∧ GravityWell.getGravityStrength w d ≤ 1) := by
  refine ⟨?_, ?_, ?_, ?_⟩
  · intro d hd
    unfold GravityWell.getGravityStrength
    rw [if_neg (by push_neg; linarith), if_pos hd]
  · intro d hd
    unfold GravityWell.getGravityStrength
    rw [if_pos (by linarith)]
  · exact getGravityStrength_antitone w hRV
  · exact getGravityStrength_mem_unitInterval w hRV

/-- C3, witness: the level-1 well at (200, 300) with mass 80, capture
radius 35, influence radius 150: strength 1 exactly at distance 35 and 0 at
distance 150. -/
theorem C3_field_strength_witness :
    GravityWell.getGravityStrength ⟨200, 300, 80, 35, 150⟩ 35 = 1
    ∧ GravityWell.getGravityStrength ⟨200, 300, 80, 35, 150⟩ 150 = 0 := by
  have h := C3_field_strength ⟨200, 300, 80, 35, 150⟩ (by norm_num)
  exact ⟨h.1 35 (le_refl _), h.2.1 150 (le_refl _)⟩

/-- C4: one PlayerPod.update step never leaves the speed above maxVelocity
(if the pre-clamp speed exceeds it, the velocity is rescaled to magnitude
maxVelocity with direction preserved, as the explicit scaling by
maxVelocity / speed); and for a pod already exactly at max speed with all
directional inputs off, the update leaves the velocity, hence the speed,
unchanged. -/
theorem C4_speed_clamp :
    (∀ (s : PlayerState) (delta : ℚ) (controls : Controls) (fuel speed gw gh : ℚ),
      0 ≤ speed →
      speed ^ 2 = (PlayerPod.preClampVelocity s delta controls fuel).x ^ 2
        + (PlayerPod.preClampVelocity s delta controls fuel).y ^ 2 →
      ((PlayerPod.update s delta controls fuel speed gw gh).velocityX ^ 2
          + (PlayerPod.update s delta controls fuel speed gw gh).velocityY ^ 2
          ≤ PlayerPod.maxVelocity ^ 2)
      ∧ (speed > PlayerPod.maxVelocity →
          (PlayerPod.update s delta controls fuel speed gw gh).velocityX
            = (PlayerPod.preClampVelocity s delta controls fuel).x / speed
              * PlayerPod.maxVelocity
          ∧ (PlayerPod.update s delta controls fuel speed gw gh).velocityY
            = (PlayerPod.preClampVelocity s delta controls fuel).y / speed
              * PlayerPod.maxVelocity))
    ∧ (∀ (s : PlayerState) (delta fuel speed gw gh : ℚ),
      0 ≤ speed →
      speed ^ 2 = (PlayerPod.preClampVelocity s delta ⟨false, false, false, false⟩ fuel).x ^ 2
        + (PlayerPod.preClampVelocity s delta ⟨false, false, false, false⟩ fuel).y ^ 2 →
      s.velocityX ^ 2 + s.velocityY ^ 2 = PlayerPod.maxVelocity ^ 2 →
      (PlayerPod.update s delta ⟨false, false, false, false⟩ fuel speed gw gh).velocityX
          = s.velocityX
        ∧ (PlayerPod.update s delta ⟨false, false, false, false⟩ fuel speed gw gh).velocityY
          = s.velocityY
        ∧ (PlayerPod.update s delta ⟨false, false, false, false⟩ fuel speed gw gh).velocityX ^ 2
          + (PlayerPod.update s delta ⟨false, false, false, false⟩ fuel speed gw gh).velocityY ^ 2
          = PlayerPod.maxVelocity ^ 2) := by
  have hstill : ∀ (s : PlayerState) (delta fuel : ℚ),
      PlayerPod.preClampVelocity s delta ⟨false, false, false, false⟩ fuel
        = ⟨s.velocityX, s.velocityY⟩ := by
    intro s delta fuel
    simp only [PlayerPod.preClampVelocity, PlayerPod.currentThrust]
    rcases Bool.eq_false_or_eq_true (decide (0 < fuel)) with h | h <;>
      simp [h, Vec2.mk.injEq]
  constructor
  · intro s delta controls fuel speed gw gh hsp0 hsp2
    by_cases hgt : speed > PlayerPod.maxVelocity
    · have hne : speed ≠ 0 := by
        have : (0 : ℚ) < PlayerPod.maxVelocity := by norm_num [PlayerPod.maxVelocity]
        exact ne_of_gt (lt_trans this hgt)
      constructor
      · simp only [PlayerPod.update, if_pos hgt]
        apply le_of_eq
        calc ((PlayerPod.preClampVelocity s delta controls fuel).x / speed
                * PlayerPod.maxVelocity) ^ 2
              + ((PlayerPod.preClampVelocity s delta controls fuel).y / speed
                * PlayerPod.maxVelocity) ^ 2
            = ((PlayerPod.preClampVelocity s delta controls fuel).x ^ 2
                + (PlayerPod.preClampVelocity s delta controls fuel).y ^ 2)
              * (PlayerPod.maxVelocity / speed) ^ 2 := by ring
          _ = speed ^ 2 * (PlayerPod.maxVelocity / speed) ^ 2 := by rw [hsp2]
          _ = PlayerPod.maxVelocity ^ 2 * (speed ^ 2 / speed ^ 2) := by ring
          _ = PlayerPod.maxVelocity ^ 2 := by
              rw [div_self (pow_ne_zero 2 hne), mul_one]
      · intro _
        simp only [PlayerPod.update, if_pos hgt]
        refine ⟨?_, ?_⟩ <;> trivial
    · constructor
      · simp only [PlayerPod.update, if_neg hgt]
        push_neg at hgt
        have : speed ^ 2 ≤ PlayerPod.maxVelocity ^ 2 := by
          apply pow_le_pow_left₀ hsp0 hgt
        rw [hsp2] at this
        exact this
      · intro h
        exact absurd h hgt
  · intro s delta fuel speed gw gh hsp0 hsp2 hmax
    rw [hstill s delta fuel] at hsp2
    simp only at hsp2
    have hsp : speed = PlayerPod.maxVelocity := by
      have hm0 : (0 : ℚ) ≤ PlayerPod.maxVelocity := by norm_num [PlayerPod.maxVelocity]
      have : speed ^ 2 = PlayerPod.maxVelocity ^ 2 := by rw [hsp2, hmax]
      nlinarith
    have hngt : ¬ speed > PlayerPod.maxVelocity := by
      rw [hsp]
      exact lt_irrefl _
    constructor
    · simp only [PlayerPod.update, if_neg hngt, hstill s delta fuel]
    constructor
    · simp only [PlayerPod.update, if_neg hngt, hstill s delta fuel]
    · simp only [PlayerPod.update, if_neg hngt, hstill s delta fuel]
      exact hmax

/-- C4, witness: a pod at rest with thrust up, delta 10, full fuel: the
post-update speed is within the limit; and a pod moving at exactly (200, 0)
with no inputs keeps velocity (200, 0). -/
theorem C4_speed_clamp_witness :
    ((PlayerPod.update ⟨0, 0, 0, 0, 1⟩ 10 ⟨true, false, false, false⟩ 100 (3 / 10) 800
        600).velocityX ^ 2
      + (PlayerPod.update ⟨0, 0, 0, 0, 1⟩ 10 ⟨true, false, false, false⟩ 100 (3 / 10) 800
        600).velocityY ^ 2
      ≤ PlayerPod.maxVelocity ^ 2)
    ∧ (PlayerPod.update ⟨0, 0, 200, 0, 1⟩ 10 ⟨false, false, false, false⟩ 100 200 800
        600).velocityX = 200 := by
  constructor
  · exact (C4_speed_clamp.1 ⟨0, 0, 0, 0, 1⟩ 10 ⟨true, false, false, false⟩ 100 (3 / 10) 800 600
      (by norm_num)
      (by norm_num [PlayerPod.preClampVelocity, PlayerPod.currentThrust,
        PlayerPod.thrusterForce])).1
  · exact (C4_speed_clamp.2 ⟨0, 0, 200, 0, 1⟩ 10 100 200 800 600
      (by norm_num)
      (by norm_num [PlayerPod.preClampVelocity, PlayerPod.currentThrust])
      (by norm_num [PlayerPod.maxVelocity])).1

/-- C5, counterexample: a debris at x = -10 on an 800x600 screen has moved
left past x = 0, yet Debris.wrapAroundScreen leaves it at -10 instead of
relocating it to width + margin = 850: the debris wrap thresholds sit at
-50 and width + 50, not at 0 and width. -/
theorem C5_counterexample :
    (Debris.wrapAroundScreen 800 600 (-10) 100).1 = -10
    ∧ ((-10 : ℚ) < 0)
    ∧ (Debris.wrapAroundScreen 800 600 (-10) 100).1 ≠ 800 + 50 := by
  refine ⟨?_, by norm_num, ?_⟩ <;> norm_num [Debris.wrapAroundScreen]

/-- C5 (amended): each wrap step relocates a coordinate to the opposite
edge once it passes the margin-extended bound (margin 0 for the player, 50
for debris): the player wraps from x < 0 to width and from x > width to 0,
debris wraps from x < -50 to width + 50 and from x > width + 50 to -50
(symmetrically in y), and coordinates inside the extended bounds are left
unchanged. In PlayerPod.update and Debris.update the wrap runs after
position integration. -/
theorem C5_wrap_around (gameWidth gameHeight x y : ℚ)
    (hw : 0 ≤ gameWidth) (hh : 0 ≤ gameHeight) :
    ((x < 0 → (PlayerPod.wrapAroundScreen gameWidth gameHeight x y).1 = gameWidth)
      ∧ (x > gameWidth → (PlayerPod.wrapAroundScreen gameWidth gameHeight x y).1 = 0)
      ∧ (0 ≤ x → x ≤ gameWidth → (PlayerPod.wrapAroundScreen gameWidth gameHeight x y).1 = x)
      ∧ (y < 0 → (PlayerPod.wrapAroundScreen gameWidth gameHeight x y).2 = gameHeight)
      ∧ (y > gameHeight → (PlayerPod.wrapAroundScreen gameWidth gameHeight x y).2 = 0)
      ∧ (0 ≤ y → y ≤ gameHeight → (PlayerPod.wrapAroundScreen gameWidth gameHeight x y).2 = y))
    ∧ ((x < -50 → (Debris.wrapAroundScreen gameWidth gameHeight x y).1 = gameWidth + 50)
      ∧ (x > gameWidth + 50 → (Debris.wrapAroundScreen gameWidth gameHeight x y).1 = -50)
      ∧ (-50 ≤ x → x ≤ gameWidth + 50 →
          (Debris.wrapAroundScreen gameWidth gameHeight x y).1 = x)
      ∧ (y < -50 → (Debris.wrapAroundScreen gameWidth gameHeight x y).2 = gameHeight + 50)
      ∧ (y > gameHeight + 50 → (Debris.wrapAroundScreen gameWidth gameHeight x y).2 = -50)
      ∧ (-50 ≤ y → y ≤ gameHeight + 50 →
          (Debris.wrapAroundScreen gameWidth gameHeight x y).2 = y)) := by
  refine ⟨⟨?_, ?_, ?_, ?_, ?_, ?_⟩, ?_, ?_, ?_, ?_, ?_, ?_⟩ <;> intro h
  · simp [PlayerPod.wrapAroundScreen, h]
  · have hx : ¬ x < 0 := not_lt.mpr (le_trans hw (le_of_lt h))
    simp [PlayerPod.wrapAroundScreen, hx, h]
  · intro h2
    have hx : ¬ x < 0 := not_lt.mpr h
    have hx2 : ¬ x > gameWidth := not_lt.mpr h2
    simp [PlayerPod.wrapAroundScreen, hx, hx2]
  · simp [PlayerPod.wrapAroundScreen, h]
  · have hy : ¬ y < 0 := not_lt.mpr (le_trans hh (le_of_lt h))
    simp [PlayerPod.wrapAroundScreen, hy, h]
  · intro h2
    have hy : ¬ y < 0 := not_lt.mpr h
    have hy2 : ¬ y > gameHeight := not_lt.mpr h2
    simp [PlayerPod.wrapAroundScreen, hy, hy2]
  · simp [Debris.wrapAroundScreen, h]
  · have hx : ¬ x < -50 := not_lt.mpr (by linarith)
    simp [Debris.wrapAroundScreen, hx, h]
  · intro h2
    have hx : ¬ x < -50 := not_lt.mpr h
    have hx2 : ¬ x > gameWidth + 50 := not_lt.mpr h2
    simp [Debris.wrapAroundScreen, hx, hx2]
  · simp [Debris.wrapAroundScreen, h]
  · have hy : ¬ y < -50 := not_lt.mpr (by linarith)
    simp [Debris.wrapAroundScreen, hy, h]
  · intro h2
    have hy : ¬ y < -50 := not_lt.mpr h
    have hy2 : ¬ y > gameHeight + 50 := not_lt.mpr h2
    simp [Debris.wrapAroundScreen, hy, hy2]

/-- C5, witness: on an 800x600 screen, a player at x = -1 wraps to 800, a
debris at x = -51 wraps to 850, and a debris at x = 801 stays (801 is still
inside the margin-extended bound). -/
theorem C5_wrap_around_witness :
    (PlayerPod.wrapAroundScreen 800 600 (-1) 300).1 = 800
    ∧ (Debris.wrapAroundScreen 800 600 (-51) 300).1 = 850
    ∧ (Debris.wrapAroundScreen 800 600 801 300).1 = 801 := by
  have h := C5_wrap_around 800 600 (-1) 300 (by norm_num) (by norm_num)
  have h2 := C5_wrap_around 800 600 (-51) 300 (by norm_num) (by norm_num)
  have h3 := C5_wrap_around 800 600 801 300 (by norm_num) (by norm_num)
  refine ⟨h.1.1 (by norm_num), ?_, ?_⟩
  · have := h2.2.1 (by norm_num)
    rw [this]
    norm_num
  · exact h3.2.2.2.1 (by norm_num) (by norm_num)

/-- C6: with the fuel level at 0 the thrust block of PlayerPod.update is
skipped entirely, so the thrust vector is zero for every combination of
directional inputs and the pre-clamp velocity equals the previous velocity
(the thrust contribution to the velocity change is the zero vector); and
GameScene.consumeFuel clamps at 0, never driving the fuel level negative. -/
theorem C6_fuel_gate :
    (∀ (fuel : ℚ) (controls : Controls), fuel = 0 →
      PlayerPod.currentThrust (decide (0 < fuel)) controls = ⟨0, 0⟩)
    ∧ (∀ (s : PlayerState) (delta fuel : ℚ) (controls : Controls), fuel = 0 →
      PlayerPod.preClampVelocity s delta controls fuel = ⟨s.velocityX, s.velocityY⟩)
    ∧ (∀ fuel amount : ℚ, 0 ≤ GameScene.consumeFuel fuel amount) := by
  have hthrust : ∀ (fuel : ℚ) (controls : Controls), fuel = 0 →
      PlayerPod.currentThrust (decide (0 < fuel)) controls = ⟨0, 0⟩ := by
    intro fuel controls h
    subst h
    norm_num [PlayerPod.currentThrust]
  refine ⟨hthrust, ?_, ?_⟩
  · intro s delta fuel controls h
    rw [PlayerPod.preClampVelocity, hthrust fuel controls h]
    simp [Vec2.mk.injEq]
  · intro fuel amount
    exact le_max_left 0 (fuel - amount)

/-- C6, witness: at fuel 0 with all four inputs held, the thrust is the
zero vector, the velocity is untouched by thrust, and consuming 5 units of
fuel from an empty tank leaves it at 0, not below. -/
theorem C6_fuel_gate_witness :
    PlayerPod.currentThrust (decide ((0 : ℚ) < 0)) ⟨true, true, true, true⟩ = ⟨0, 0⟩
    ∧ PlayerPod.preClampVelocity ⟨0, 0, 7, -3, 1⟩ 16 ⟨true, true, true, true⟩ 0 = ⟨7, -3⟩
    ∧ 0 ≤ GameScene.consumeFuel 0 5 := by
  exact ⟨C6_fuel_gate.1 0 ⟨true, true, true, true⟩ rfl,
    C6_fuel_gate.2.1 ⟨0, 0, 7, -3, 1⟩ 16 0 ⟨true, true, true, true⟩ rfl,
    C6_fuel_gate.2.2 0 5⟩

/-- C7: every ending/transition method of the GameScene no-ops once the
gameStarted flag is cleared; each of them clears the flag when it does run;
and in the timer scenario (timeRemaining = 1, two successive one-second
ticks) the Failed transition effect is emitted exactly once. -/
theorem C7_transition_guard :
    (∀ s : SceneState, s.gameStarted = false →
      GameScene.gameOver s = s ∧ GameScene.gameWin s = s
        ∧ GameScene.advanceToLevel2 s = s ∧ GameScene.advanceToLevel3 s = s)
    ∧ (∀ s : SceneState,
      (GameScene.gameOver s).gameStarted = false
        ∧ (GameScene.gameWin s).gameStarted = false
        ∧ (GameScene.advanceToLevel2 s).gameStarted = false
        ∧ (GameScene.advanceToLevel3 s).gameStarted = false)
    ∧ (GameScene.timerTick (GameScene.timerTick ⟨true, 1, []⟩)).events = [GameEvent.failed] := by
  refine ⟨?_, ?_, ?_⟩
  · intro s h
    simp [GameScene.gameOver, GameScene.gameWin, GameScene.advanceToLevel2,
      GameScene.advanceToLevel3, h]
  · intro s
    rcases s with ⟨started, t, ev⟩
    cases started <;>
      simp [GameScene.gameOver, GameScene.gameWin, GameScene.advanceToLevel2,
        GameScene.advanceToLevel3]
  · rfl

/-- C7, witness: a scene whose flag is already cleared is left exactly as
it is by gameOver. -/
theorem C7_transition_guard_witness :
    GameScene.gameOver ⟨false, 0, [GameEvent.failed]⟩ = ⟨false, 0, [GameEvent.failed]⟩ := by
  exact (C7_transition_guard.1 ⟨false, 0, [GameEvent.failed]⟩ rfl).1

/-- A per-tick update leaves an already re-armed gate unchanged. -/
lemma gate_update_of_active (g : GateState) (hg : g.isActive = true) (d : ℚ) :
    MomentumTransferGate.update g d = g := by
  simp [MomentumTransferGate.update, hg]

/-- applyUpdates unfolds one tick at a time. -/
lemma gate_applyUpdates_cons (g : GateState) (d : ℚ) (ds : List ℚ) :
    MomentumTransferGate.applyUpdates g (d :: ds)
      = MomentumTransferGate.applyUpdates (MomentumTransferGate.update g d) ds := rfl

/-- A re-armed gate stays unchanged under any further updates. -/
lemma gate_applyUpdates_of_active (ds : List ℚ) (g : GateState) (hg : g.isActive = true) :
    MomentumTransferGate.applyUpdates g ds = g := by
  induction ds with
  | nil => rfl
  | cons d ds ih =>
    rw [gate_applyUpdates_cons, gate_update_of_active g hg d]
    exact ih

/-- The cooldown countdown touches only isActive and activationCooldown;
the geometry and transfer parameters survive any update sequence. -/
lemma gate_applyUpdates_preserves (ds : List ℚ) (g : GateState) :
    (MomentumTransferGate.applyUpdates g ds).directionX = g.directionX
    ∧ (MomentumTransferGate.applyUpdates g ds).directionY = g.directionY
    ∧ (MomentumTransferGate.applyUpdates g ds).conservationFactor = g.conservationFactor
    ∧ (MomentumTransferGate.applyUpdates g ds).gateWidth = g.gateWidth
    ∧ (MomentumTransferGate.applyUpdates g ds).cooldownTime = g.cooldownTime := by
  induction ds generalizing g with
  | nil => exact ⟨rfl, rfl, rfl, rfl, rfl⟩
  | cons d ds ih =>
    rw [gate_applyUpdates_cons]
    have hstep : (MomentumTransferGate.update g d).directionX = g.directionX
        ∧ (MomentumTransferGate.update g d).directionY = g.directionY
        ∧ (MomentumTransferGate.update g d).conservationFactor = g.conservationFactor
        ∧ (MomentumTransferGate.update g d).gateWidth = g.gateWidth
        ∧ (MomentumTransferGate.update g d).cooldownTime = g.cooldownTime := by
      simp only [MomentumTransferGate.update]
      split_ifs <;> exact ⟨rfl, rfl, rfl, rfl, rfl⟩
    have h := ih (MomentumTransferGate.update g d)
    exact ⟨h.1.trans hstep.1, h.2.1.trans hstep.2.1, h.2.2.1.trans hstep.2.2.1,
      h.2.2.2.1.trans hstep.2.2.2.1, h.2.2.2.2.trans hstep.2.2.2.2⟩

/-- A cooling-down gate with positive remaining cooldown re-arms under a
sequence of nonnegative elapsed times exactly when their total reaches the
remaining cooldown. -/
lemma gate_applyUpdates_isActive_iff :
    ∀ (ds : List ℚ), (∀ d ∈ ds, 0 ≤ d) → ∀ (g : GateState),
      g.isActive = false → 0 < g.activationCooldown →
      ((MomentumTransferGate.applyUpdates g ds).isActive = true
        ↔ g.activationCooldown ≤ ds.sum) := by
  intro ds
  induction ds with
  | nil =>
    intro _ g hg hc
    simp only [MomentumTransferGate.applyUpdates, List.foldl_nil, List.sum_nil, hg]
    constructor
    · intro h
      exact absurd h (by norm_num)
    · intro h
      exact absurd h (not_le.mpr hc)
  | cons d ds ih =>
    intro hpos g hg hc
    have hd0 : 0 ≤ d := hpos d (List.mem_cons_self d ds)
    have hpos' : ∀ x ∈ ds, 0 ≤ x := fun x hx => hpos x (List.mem_cons_of_mem d hx)
    rw [gate_applyUpdates_cons, List.sum_cons]
    rcases le_or_lt g.activationCooldown d with hle | hlt
    · have hupd : (MomentumTransferGate.update g d).isActive = true := by
        simp only [MomentumTransferGate.update, hg, Bool.not_false, if_true]
        split_ifs with h
        · rfl
        · exfalso
          push_neg at h
          linarith
      rw [gate_applyUpdates_of_active ds _ hupd, hupd]
      have hsum : 0 ≤ ds.sum := List.sum_nonneg hpos'
      constructor
      · intro _
        linarith
      · intro _
        rfl
    · have hupd : MomentumTransferGate.update g d
          = { g with activationCooldown := g.activationCooldown - d } := by
        simp only [MomentumTransferGate.update, hg, Bool.not_false, if_true]
        split_ifs with h
        · exfalso
          linarith
        · rfl
      rw [hupd]
      have hih := ih hpos' { g with activationCooldown := g.activationCooldown - d }
        hg (by show (0 : ℚ) < g.activationCooldown - d; linarith)
      rw [hih]
      show g.activationCooldown - d ≤ ds.sum ↔ g.activationCooldown ≤ d + ds.sum
      constructor <;> (intro h; linarith)

/-- A cooling-down gate answers every checkGatePass query with no
interaction and an unchanged state. -/
lemma gate_checkGatePass_of_inactive (g : GateState) (hg : g.isActive = false)
    (objectX objectY : ℚ) (velocity : Vec2) (objectRadius dist : ℚ) :
    MomentumTransferGate.checkGatePass g objectX objectY velocity objectRadius dist
      = (none, g) := by
  simp [MomentumTransferGate.checkGatePass, hg]

/-- An armed gate triggers on any qualifying body: close enough to the
gate and with axis speed above the threshold 5. -/
lemma gate_checkGatePass_triggers (g : GateState) (hact : g.isActive = true)
    (objectX objectY : ℚ) (velocity : Vec2) (objectRadius dist : ℚ)
    (hnear : dist < g.gateWidth / 2 + objectRadius)
    (hdot : |velocity.x * g.directionX + velocity.y * g.directionY| > 5) :
    (MomentumTransferGate.checkGatePass g objectX objectY velocity objectRadius
      dist).1.isSome = true := by
  simp [MomentumTransferGate.checkGatePass, hact, hnear, hdot]

/-- C8: a triggered gate goes inactive with its cooldown reset to
cooldownTime; every qualifying (or not) check made while the nonnegative
elapsed times since the trigger total less than cooldownTime returns the
no-interaction result; and once the total reaches cooldownTime the gate is
re-armed and a qualifying body (close enough, with axis speed above the
threshold) triggers it again. -/
theorem C8_cooldown_gating (g : GateState) (objectX objectY : ℚ) (velocity : Vec2)
    (objectRadius dist : ℚ)
    (hact : g.isActive = true) (hcool : 0 < g.cooldownTime)
    (hnear : dist < g.gateWidth / 2 + objectRadius)
    (hdot : |velocity.x * g.directionX + velocity.y * g.directionY| > 5) :
    (MomentumTransferGate.checkGatePass g objectX objectY velocity objectRadius
        dist).1.isSome = true
    ∧ (MomentumTransferGate.checkGatePass g objectX objectY velocity objectRadius
        dist).2.isActive = false
    ∧ (MomentumTransferGate.checkGatePass g objectX objectY velocity objectRadius
        dist).2.activationCooldown = g.cooldownTime
    ∧ (∀ (ds : List ℚ), (∀ d ∈ ds, 0 ≤ d) → ds.sum < g.cooldownTime →
        ∀ (objectX2 objectY2 : ℚ) (velocity2 : Vec2) (objectRadius2 dist2 : ℚ),
          (MomentumTransferGate.checkGatePass
              (MomentumTransferGate.applyUpdates
                (MomentumTransferGate.checkGatePass g objectX objectY velocity objectRadius
                  dist).2 ds)
              objectX2 objectY2 velocity2 objectRadius2 dist2).1 = none)
    ∧ (∀ (ds : List ℚ), (∀ d ∈ ds, 0 ≤ d) → g.cooldownTime ≤ ds.sum →
        (MomentumTransferGate.applyUpdates
            (MomentumTransferGate.checkGatePass g objectX objectY velocity objectRadius
              dist).2 ds).isActive = true
        ∧ ∀ (objectX2 objectY2 : ℚ) (velocity2 : Vec2) (objectRadius2 dist2 : ℚ),
            dist2 < g.gateWidth / 2 + objectRadius2 →
            |velocity2.x * g.directionX + velocity2.y * g.directionY| > 5 →
            (MomentumTransferGate.checkGatePass
                (MomentumTransferGate.applyUpdates
                  (MomentumTransferGate.checkGatePass g objectX objectY velocity objectRadius
                    dist).2 ds)
                objectX2 objectY2 velocity2 objectRadius2 dist2).1.isSome = true) := by
  have hstep : MomentumTransferGate.checkGatePass g objectX objectY velocity objectRadius dist
      = (some ⟨g.directionX * |velocity.x * g.directionX + velocity.y * g.directionY|
            * g.conservationFactor,
          g.directionY * |velocity.x * g.directionX + velocity.y * g.directionY|
            * g.conservationFactor⟩,
        { g with isActive := false, activationCooldown := g.cooldownTime }) := by
    simp only [MomentumTransferGate.checkGatePass, hact]
    rw [if_pos hnear, if_pos hdot]
    simp
  rw [hstep]
  refine ⟨rfl, rfl, rfl, ?_, ?_⟩
  · intro ds hds hlt objectX2 objectY2 velocity2 objectRadius2 dist2
    have hiff := gate_applyUpdates_isActive_iff ds hds
      { g with isActive := false, activationCooldown := g.cooldownTime } rfl hcool
    have hinact : (MomentumTransferGate.applyUpdates
        { g with isActive := false, activationCooldown := g.cooldownTime } ds).isActive
        = false := by
      rcases Bool.eq_false_or_eq_true (MomentumTransferGate.applyUpdates
          { g with isActive := false, activationCooldown := g.cooldownTime } ds).isActive
        with ht | hf
      · exact absurd (hiff.mp ht) (not_le.mpr hlt)
      · exact hf
    rw [gate_checkGatePass_of_inactive _ hinact]
  · intro ds hds hge
    have hiff := gate_applyUpdates_isActive_iff ds hds
      { g with isActive := false, activationCooldown := g.cooldownTime } rfl hcool
    have hre : (MomentumTransferGate.applyUpdates
        { g with isActive := false, activationCooldown := g.cooldownTime } ds).isActive
        = true := hiff.mpr hge
    refine ⟨hre, ?_⟩
    intro objectX2 objectY2 velocity2 objectRadius2 dist2 hnear2 hdot2
    have hpres := gate_applyUpdates_preserves ds
      { g with isActive := false, activationCooldown := g.cooldownTime }
    apply gate_checkGatePass_triggers _ hre
    · rw [hpres.2.2.2.1]
      exact hnear2
    · rw [hpres.1, hpres.2.1]
      exact hdot2

/-- C8, witness: the default gate (direction (1,0), width 80, cooldown
1000) triggered by a body at distance 10 moving at (10, 0): after 400ms of
updates a qualifying check returns none; after 600 + 400 = 1000ms the gate
is re-armed and the same qualifying body triggers it. -/
theorem C8_cooldown_gating_witness :
    (MomentumTransferGate.checkGatePass
        (MomentumTransferGate.applyUpdates
          (MomentumTransferGate.checkGatePass ⟨1, 0, 1, 80, true, 0, 1000⟩ 10 0 ⟨10, 0⟩ 20
            10).2 [400])
        10 0 ⟨10, 0⟩ 20 10).1 = none
    ∧ (MomentumTransferGate.checkGatePass
        (MomentumTransferGate.applyUpdates
          (MomentumTransferGate.checkGatePass ⟨1, 0, 1, 80, true, 0, 1000⟩ 10 0 ⟨10, 0⟩ 20
            10).2 [600, 400])
        10 0 ⟨10, 0⟩ 20 10).1.isSome = true := by
  have h := C8_cooldown_gating ⟨1, 0, 1, 80, true, 0, 1000⟩ 10 0 ⟨10, 0⟩ 20 10
    rfl (by norm_num) (by norm_num) (by norm_num)
  constructor
  · exact h.2.2.2.1 [400] (by norm_num) (by norm_num) 10 0 ⟨10, 0⟩ 20 10
  · exact (h.2.2.2.2 [600, 400] (by norm_num) (by norm_num)).2 10 0 ⟨10, 0⟩ 20 10
      (by norm_num) (by norm_num)

/-- C9, counterexample: a platform oscillating on the segment from (0, 0)
to (100, 0) at moveSpeed 300, sitting at x = 90 and moving forward, steps
by 30 in one 10ms update: it lands at x = 120, outside the segment, and
only then flips its direction — the reversal happens after an overshoot
past the endpoint, not upon reaching it, and the position does not stay on
the segment. (The distances fed to the update are those of the new position
(120, 0): 120 to the start, 20 to the end, segment length 100.) -/
theorem C9_counterexample :
    (MovingPlatform.update ⟨90, 0, 0, 0, 100, 0, 300, 1, true⟩ 10 100 120 20).x = 120
    ∧ (MovingPlatform.update
        ⟨90, 0, 0, 0, 100, 0, 300, 1, true⟩ 10 100 120 20).currentDirection = -1
    ∧ ¬ (MovingPlatform.update ⟨90, 0, 0, 0, 100, 0, 300, 1, true⟩ 10 100 120 20).x ≤ 100 := by
  norm_num [MovingPlatform.update]

/-- One active platform update always moves the position and flips the
direction afterwards if the new position lies beyond an endpoint. -/
lemma platform_update_eq (p : PlatformState) (delta len dS dE : ℚ)
    (hact : p.isActive = true) :
    MovingPlatform.update p delta len dS dE =
      { p with
        x := p.x + (p.endX - p.startX) / len * (p.moveSpeed * delta * (1 / 100))
          * p.currentDirection
        y := p.y + (p.endY - p.startY) / len * (p.moveSpeed * delta * (1 / 100))
          * p.currentDirection
        currentDirection :=
          if dS > len ∨ dE > len then -p.currentDirection else p.currentDirection } := by
  simp only [MovingPlatform.update, hact, Bool.not_true, Bool.false_eq_true, if_false]
  split_ifs with h <;> rfl

/-- C9 (amended): parametrize the platform position along its segment by
the arc coordinate t ∈ [0, len]. One update moves t by one signed step; the
new coordinate can leave [0, len] by at most one stepSize (so the position
can overshoot the segment by one step, no further), and the direction flips
exactly when the new coordinate is off the segment — i.e. after the
overshoot, not upon reaching the endpoint. -/
theorem C9_platform_motion (p : PlatformState) (delta len dS dE t : ℚ)
    (hact : p.isActive = true)
    (hlen : 0 < len)
    (hx : p.x = p.startX + t * (p.endX - p.startX) / len)
    (hy : p.y = p.startY + t * (p.endY - p.startY) / len)
    (ht0 : 0 ≤ t) (htl : t ≤ len)
    (hdir : p.currentDirection = 1 ∨ p.currentDirection = -1)
    (hsp : 0 ≤ p.moveSpeed) (hdelta : 0 ≤ delta)
    (hstep : MovingPlatform.stepSize p delta ≤ len)
    (hdS : dS = |t + p.currentDirection * MovingPlatform.stepSize p delta|)
    (hdE : dE = |len - (t + p.currentDirection * MovingPlatform.stepSize p delta)|) :
    ((MovingPlatform.update p delta len dS dE).x
        = p.startX + (t + p.currentDirection * MovingPlatform.stepSize p delta)
            * (p.endX - p.startX) / len)
    ∧ ((MovingPlatform.update p delta len dS dE).y
        = p.startY + (t + p.currentDirection * MovingPlatform.stepSize p delta)
            * (p.endY - p.startY) / len)
    ∧ (-(MovingPlatform.stepSize p delta)
          ≤ t + p.currentDirection * MovingPlatform.stepSize p delta
        ∧ t + p.currentDirection * MovingPlatform.stepSize p delta
          ≤ len + MovingPlatform.stepSize p delta)
    ∧ ((MovingPlatform.update p delta len dS dE).currentDirection
        = if t + p.currentDirection * MovingPlatform.stepSize p delta < 0
            ∨ t + p.currentDirection * MovingPlatform.stepSize p delta > len
          then -p.currentDirection else p.currentDirection) := by
  have hlen0 : len ≠ 0 := ne_of_gt hlen
  have hs0 : 0 ≤ MovingPlatform.stepSize p delta := by
    unfold MovingPlatform.stepSize
    positivity
  have hb1 : -(MovingPlatform.stepSize p delta)
      ≤ t + p.currentDirection * MovingPlatform.stepSize p delta := by
    rcases hdir with h | h <;> rw [h] <;> linarith
  have hb2 : t + p.currentDirection * MovingPlatform.stepSize p delta
      ≤ len + MovingPlatform.stepSize p delta := by
    rcases hdir with h | h <;> rw [h] <;> linarith
  have hiff : (dS > len ∨ dE > len)
      ↔ (t + p.currentDirection * MovingPlatform.stepSize p delta < 0
          ∨ t + p.currentDirection * MovingPlatform.stepSize p delta > len) := by
    rw [hdS, hdE]
    constructor
    · rintro (h | h)
      · rcases lt_abs.mp h with h1 | h1
        · exact Or.inr h1
        · exfalso
          linarith
      · rcases lt_abs.mp h with h1 | h1
        · exact Or.inl (by linarith)
        · exfalso
          linarith
    · rintro (h | h)
      · exact Or.inr (lt_abs.mpr (Or.inl (by linarith)))
      · exact Or.inl (lt_abs.mpr (Or.inl h))
  rw [platform_update_eq p delta len dS dE hact]
  refine ⟨?_, ?_, ⟨hb1, hb2⟩, ?_⟩
  · show p.x + (p.endX - p.startX) / len * (p.moveSpeed * delta * (1 / 100))
        * p.currentDirection = _
    rw [hx]
    unfold MovingPlatform.stepSize
    field_simp
    ring
  · show p.y + (p.endY - p.startY) / len * (p.moveSpeed * delta * (1 / 100))
        * p.currentDirection = _
    rw [hy]
    unfold MovingPlatform.stepSize
    field_simp
    ring
  · show (if dS > len ∨ dE > len then -p.currentDirection else p.currentDirection) = _
    simp only [hiff]

/-- C9, witness: the counterexample configuration satisfies every premise
of the amended theorem with t = 90, step 30: the new arc coordinate 120
lies within one step of the segment and the direction flips. -/
theorem C9_platform_motion_witness :
    (MovingPlatform.update ⟨90, 0, 0, 0, 100, 0, 300, 1, true⟩ 10 100 120 20).x
        = 0 + (90 + 1 * MovingPlatform.stepSize ⟨90, 0, 0, 0, 100, 0, 300, 1, true⟩ 10)
            * (100 - 0) / 100
    ∧ (90 + 1 * MovingPlatform.stepSize ⟨90, 0, 0, 0, 100, 0, 300, 1, true⟩ 10
        ≤ 100 + MovingPlatform.stepSize ⟨90, 0, 0, 0, 100, 0, 300, 1, true⟩ 10) := by
  have h := C9_platform_motion ⟨90, 0, 0, 0, 100, 0, 300, 1, true⟩ 10 100 120 20 90
    rfl (by norm_num) (by norm_num) (by norm_num) (by norm_num) (by norm_num)
    (Or.inl rfl) (by norm_num) (by norm_num)
    (by norm_num [MovingPlatform.stepSize])
    (by norm_num [MovingPlatform.stepSize])
    (by norm_num [MovingPlatform.stepSize])
  exact ⟨h.1, h.2.2.1.2⟩

/-- C10: degenerate numeric inputs give neutral results. A collision pair
at exactly zero distance makes resolveCollision return both bodies
untouched, and a zero-speed player never passes the momentum-matching
rescue check of MomentumLoopAstronaut (the NaN that the source produces in
the normalized direction is absorbed: every comparison involving it is
false, matching the embedded semantics, and the momentum band test already
fails outright). Both functions are total: no panic or exception on zero
vectors. -/
theorem C10_degenerate_inputs :
    (∀ (bodyA bodyB : PhysBody) (dist : ℚ),
      dist * dist = (bodyA.x - bodyB.x) * (bodyA.x - bodyB.x)
        + (bodyA.y - bodyB.y) * (bodyA.y - bodyB.y) →
      bodyA.x = bodyB.x → bodyA.y = bodyB.y →
      PhysicsEngine.resolveCollision bodyA bodyB dist = (bodyA, bodyB))
    ∧ (∀ (a : Astronaut) (velocityX velocityY playerMass playerSpeed : ℚ),
      playerSpeed = 0 →
      MomentumLoopAstronaut.canBeRescued a velocityX velocityY playerMass playerSpeed
        = false) := by
  constructor
  · intro bodyA bodyB dist hd2 hxx hyy
    have hzero : dist * dist = 0 := by
      rw [hd2, hxx, hyy]
      ring
    have hd0 : dist = 0 := by
      exact mul_self_eq_zero.mp hzero
    simp [PhysicsEngine.resolveCollision, hd0]
  · intro a velocityX velocityY playerMass playerSpeed hsp
    subst hsp
    rcases Bool.eq_false_or_eq_true a.rescued with ht | hf
    · simp [MomentumLoopAstronaut.canBeRescued, ht]
    · have key : ¬ (|0 * playerMass - a.requiredMomentum|
          < a.requiredMomentum * MomentumLoopAstronaut.momentumTolerance) := by
        rw [zero_mul, zero_sub, abs_neg, MomentumLoopAstronaut.momentumTolerance]
        rcases le_or_lt 0 a.requiredMomentum with h | h
        · rw [abs_of_nonneg h]
          intro hlt
          linarith
        · rw [abs_of_neg h]
          intro hlt
          linarith
      simp [MomentumLoopAstronaut.canBeRescued, hf, key]
      intro _
      norm_num [MomentumLoopAstronaut.momentumTolerance]

/-- C10, witness: two bodies stacked at the origin are left exactly as they
are, and an astronaut requiring momentum 50 in direction (1, 0) cannot be
rescued by a player at rest. -/
theorem C10_degenerate_inputs_witness :
    PhysicsEngine.resolveCollision ⟨0, 0, 3, 4, 1, 32⟩ ⟨0, 0, -1, 2, 2, 32⟩ 0
        = (⟨0, 0, 3, 4, 1, 32⟩, ⟨0, 0, -1, 2, 2, 32⟩)
    ∧ MomentumLoopAstronaut.canBeRescued ⟨false, 50, 1, 0⟩ 0 0 1 0 = false := by
  exact ⟨C10_degenerate_inputs.1 ⟨0, 0, 3, 4, 1, 32⟩ ⟨0, 0, -1, 2, 2, 32⟩ 0
      (by norm_num) rfl rfl,
    C10_degenerate_inputs.2 ⟨false, 50, 1, 0⟩ 0 0 1 0 rfl⟩

end SpaceDrift
